import Mathlib

/-!
Shallow embedding of the ascii-video frame-to-ASCII rendering pipeline and
export pipeline state machine (source file src/unnamed/part_005).

Pure numeric code (grid geometry, luminance, contrast, glyph selection,
color blending, timestamp clamping) is translated directly, with JS numbers
modelled as rationals and JS Math.round as round-half-up.  Code that talks
to the outside world (the media element, the canvas, the FFmpeg wasm
encoder) is modelled by threading an explicit environment that records the
outcome of each external call, and the export handler becomes a function
from that environment to the trace of state updates, the set of frame files
written, and the cleanup actions attempted.
-/

namespace AsciiVideo

/-! Constants from src/unnamed/part_005, lines 25-45. -/

def VIEWPORT_WIDTH : ℚ := 960

def VIEWPORT_HEIGHT : ℚ := 540

def DEFAULT_ASPECT : ℚ := VIEWPORT_WIDTH / VIEWPORT_HEIGHT

/-- Tier export policy (lines 32-44).  The free watermark string itself is
irrelevant to the claims, so only its presence is kept. -/
structure ExportConfig where
  fps : ℕ
  minCharPixel : ℕ
  maxCharPixel : ℕ
  hasWatermark : Bool
deriving DecidableEq

def FREE_EXPORT_CONFIG : ExportConfig :=
  { fps := 10, minCharPixel := 8, maxCharPixel := 12, hasWatermark := true }

def PREMIUM_EXPORT_CONFIG : ExportConfig :=
  { fps := 24, minCharPixel := 6, maxCharPixel := 12, hasWatermark := false }

/-- tierConfig memo (lines 333-336): premium entitlement selects the premium
config, anything else the free one.  We key it on isFreeTier (line 346). -/
def tierConfig (isFreeTier : Bool) : ExportConfig :=
  if isFreeTier then FREE_EXPORT_CONFIG else PREMIUM_EXPORT_CONFIG

/-! Color helpers, lines 87-104. -/

structure Rgb where
  r : ℤ
  g : ℤ
  b : ℤ
deriving DecidableEq

/-- JS Math.round: round half toward positive infinity. -/
def jsRound (q : ℚ) : ℤ := ⌊q + 1/2⌋

/-- hexToRgb (lines 87-92), modelled from the numeric value produced by
parseInt(value, 16); the string normalization that precedes it is pure
character shuffling and does not affect any claim. -/
def hexToRgb (hexValue : ℕ) : Rgb :=
  { r := ((hexValue >>> 16) &&& 255 : ℕ)
    g := ((hexValue >>> 8) &&& 255 : ℕ)
    b := ((hexValue &&& 255 : ℕ) : ℤ) }

/-- mixColor (lines 94-100). -/
def mixColor (a b : Rgb) (ratio : ℚ) : Rgb :=
  { r := jsRound ((a.r : ℚ) * (1 - ratio) + (b.r : ℚ) * ratio)
    g := jsRound ((a.g : ℚ) * (1 - ratio) + (b.g : ℚ) * ratio)
    b := jsRound ((a.b : ℚ) * (1 - ratio) + (b.b : ℚ) * ratio) }

/-- A color scheme (lines 16-21, 66): foreground and accent hex colors,
kept as their parsed numeric values. -/
structure Scheme where
  foreground : ℕ
  accent : ℕ
deriving DecidableEq

/-! Grid geometry resolver, lines 106-113. -/

/-- The metadata of the source video that computeGrid reads:
videoWidth and videoHeight (natural numbers, 0 when unknown). -/
structure VideoMeta where
  videoWidth : ℕ
  videoHeight : ℕ
deriving DecidableEq

structure Grid where
  width : ℤ
  height : ℤ
  charWidth : ℚ
  charHeight : ℚ
deriving DecidableEq

/-- computeGrid (lines 106-113).  The JS truthiness test
video.videoWidth && video.videoHeight is nonzero-ness of both. -/
def computeGrid (video : VideoMeta) (charPixelSize : ℚ) : Grid :=
  let charWidth := max 1 (charPixelSize * (62/100))
  let charHeight := charPixelSize * (12/10)
  let videoAspect :=
    if video.videoWidth ≠ 0 ∧ video.videoHeight ≠ 0 then
      (video.videoWidth : ℚ) / (video.videoHeight : ℚ)
    else DEFAULT_ASPECT
  let rows : ℤ := max 12 ⌊VIEWPORT_HEIGHT / charHeight⌋
  let cols : ℤ := max 16 ⌊(rows : ℚ) * videoAspect * (charHeight / charWidth)⌋
  { width := cols, height := rows, charWidth := charWidth, charHeight := charHeight }

/-! Frame rasterizer, lines 52-64 and 115-166. -/

def brightnessFor (r g b : ℚ) : ℚ :=
  ((2126/10000) * r + (7152/10000) * g + (722/10000) * b) / 255

/-- The contrast clamp applied at line 140. -/
def clampContrast (contrast : ℚ) : ℚ := max (2/10) (min (25/10) contrast)

/-- The adjusted brightness computed at line 150. -/
def adjustedBrightness (bright clampedContrast : ℚ) : ℚ :=
  max 0 (min 1 ((bright - 1/2) * clampedContrast + 1/2))

structure AsciiCell where
  char : Char
  color : Rgb
  brightness : ℚ
deriving DecidableEq

structure AsciiFrame where
  width : ℤ
  height : ℤ
  charWidth : ℚ
  charHeight : ℚ
  rows : List (List AsciiCell)
deriving DecidableEq

/-- The per-pixel body of the rasterization loop (lines 144-160).
data is the flat RGBA byte array returned by getImageData, indexed
exactly as in the source: offset (y * width + x) * 4. -/
def asciiCellAt (data : ℕ → ℕ) (charset : List Char) (accentRgb foregroundRgb : Rgb)
    (clampedContrast : ℚ) (width : ℕ) (x y : ℕ) : AsciiCell :=
  let offset := (y * width + x) * 4
  let r := (data offset : ℚ)
  let g := (data (offset + 1) : ℚ)
  let b := (data (offset + 2) : ℚ)
  let bright := brightnessFor r g b
  let adjusted := adjustedBrightness bright clampedContrast
  let index : ℤ :=
    max 0 (min ((charset.length : ℤ) - 1) (jsRound ((1 - adjusted) * ((charset.length : ℤ) - 1))))
  let char := charset.getD index.toNat ' '
  let blended := mixColor accentRgb foregroundRgb adjusted
  { char := char, color := blended, brightness := adjusted }

/-- asciiFromVideo (lines 119-166).  contextOk models whether
bufferCanvas.getContext succeeded (line 128-129): returns none exactly when
it did not.  data is the pixel readback of the drawn frame; everything
downstream of it is translated verbatim. -/
def asciiFromVideo (video : VideoMeta) (contextOk : Bool) (data : ℕ → ℕ)
    (charset : List Char) (scheme : Scheme) (charPixelSize contrast : ℚ) :
    Option AsciiFrame :=
  let grid := computeGrid video charPixelSize
  if contextOk = false then none else
    let accentRgb := hexToRgb scheme.accent
    let foregroundRgb := hexToRgb scheme.foreground
    let clampedContrast := clampContrast contrast
    let width := grid.width.toNat
    let height := grid.height.toNat
    some
      { width := grid.width, height := grid.height
        charWidth := grid.charWidth, charHeight := grid.charHeight
        rows := (List.range height).map fun y =>
          (List.range width).map fun x =>
            asciiCellAt data charset accentRgb foregroundRgb clampedContrast width x y }

/-! Frame-accurate seeker, lines 210-261. -/

/-- A JS number as the media element duration can present it: an ordinary
finite value, positive Infinity, or NaN (per the HTML media spec the
duration is never negative infinity). -/
inductive JsNum
  | finite (q : ℚ)
  | infinity
  | nan
deriving DecidableEq

/-- clampTime (lines 210-213): durations of Infinity or NaN return the time
unchanged; otherwise clamp to min(max(time, 0), max(0, duration - 0.001)). -/
def clampTime (duration : JsNum) (time : ℚ) : ℚ :=
  match duration with
  | .infinity => time
  | .nan => time
  | .finite d => min (max time 0) (max 0 (d - 1/1000))

/-- How a pending seekVideo promise settled. -/
inductive SeekSettle
  | resolvedSeek
  | rejectedSeek
deriving DecidableEq

/-- The observable state of one seekVideo call: the resolved flag of line
218, whether the video element is paused, the currentTime assignment that
actually reached the stream (none if the assignment threw), and how the
promise settled (none while pending). -/
structure SeekState where
  resolved : Bool
  paused : Bool
  currentTime : Option ℚ
  outcome : Option SeekSettle
deriving DecidableEq

/-- The asynchronous signals that can reach a pending seekVideo call: the
seeked event (line 241) or the 800 ms timeout firing (line 247). -/
inductive SeekEvent
  | seeked
  | timeoutFired
deriving DecidableEq

/-- finish (lines 226-232): once only, pause the video and resolve. -/
def seekFinish (st : SeekState) : SeekState :=
  if st.resolved then st
  else { st with resolved := true, paused := true, outcome := some SeekSettle.resolvedSeek }

/-- fail (lines 234-239): once only, reject with the error. -/
def seekFail (st : SeekState) : SeekState :=
  if st.resolved then st
  else { st with resolved := true, outcome := some SeekSettle.rejectedSeek }

/-- Both the seeked listener and the timeout callback call finish
(lines 241-250): a late or imprecise seek is accepted. -/
def seekStep (st : SeekState) (e : SeekEvent) : SeekState :=
  match e with
  | .seeked => seekFinish st
  | .timeoutFired => seekFinish st

/-- seekVideo (lines 215-261).  The synchronous executor pauses the video
and assigns the clamped target to currentTime (lines 254-259); if that
assignment throws (assignThrows), fail runs at once.  Afterwards the listed
events are delivered in order; the timeout is only cleared on settlement,
so in any real run the event list is nonempty (the 800 ms timer fires if no
seeked event arrives first). -/
def seekVideo (duration : JsNum) (time : ℚ) (assignThrows : Bool)
    (events : List SeekEvent) : SeekState :=
  let target := clampTime duration time
  let st0 : SeekState := { resolved := false, paused := false, currentTime := none, outcome := none }
  let st1 : SeekState := { st0 with paused := true }
  let st2 : SeekState :=
    if assignThrows then seekFail st1
    else { st1 with currentTime := some target }
  events.foldl seekStep st2

/-! Export orchestrator, lines 46-85 and 635-905. -/

inductive ExportFormat
  | gif
  | mp4
  | mov
deriving DecidableEq

/-- The status enum of ExportState (line 69). -/
inductive ExportStatus
  | idle
  | initializing
  | sampling
  | encoding
  | delivering
  | error
  | done
deriving DecidableEq

/-- The distinct error messages the export handler can throw or surface
(lines 278, 666, 673, 724, 800, 814, and the rejections of ffmpeg.exec and
ffmpeg.readFile caught at line 848).  frameProcessingFailed carries the
1-based frame index of the message at line 800. -/
inductive ExportError
  | encoderUnavailable
  | videoUnreadable
  | durationUnavailable
  | canvasUnavailable
  | frameProcessingFailed (oneBasedIndex : ℕ)
  | noFramesCaptured
  | encodingFailed
  | deliveryFailed
deriving DecidableEq

/-- The message strings passed to setExportState, as symbolic values.
capturedFrame stores the 0-based index; the display string prints index + 1
out of totalFrames (line 806). -/
inductive ExportMessage
  | loadingEncoder
  | samplingFrames
  | truncatedTo (totalFrames : ℕ)
  | capturedFrame (index : ℕ) (totalFrames : ℕ)
  | encodingMedia
  | preparingDownload
  | exported (format : ExportFormat)
  | exportError (e : ExportError)
deriving DecidableEq

/-- ExportState (lines 68-73). -/
structure ExportState where
  status : ExportStatus
  format : Option ExportFormat
  progress : ℚ
  message : Option ExportMessage
deriving DecidableEq

/-- The outcome of handling one sampling instant inside the loop at lines
727-808: the seekVideo call rejects (caught and skipped, line 731-734);
the rasterizer returns null (skipped, line 743); writing the rendered
frame to the encoder store fails (fatal, lines 795-801); or everything
succeeds and the frame file is written. -/
inductive FrameOutcome
  | seekFailed
  | rasterNull
  | writeFailed
  | ok
deriving DecidableEq

/-- The recorded outcomes of every external call one export run performs:
encoder load (lines 263-281), metadata load (lines 664-669), the duration
reported then (line 671), whether the export canvas yields a 2d context
(lines 722-725), the per-instant outcome, and the results of ffmpeg.exec
(line 828) and ffmpeg.readFile (line 831). -/
structure ExportEnv where
  ffmpegLoadOk : Bool
  metadataOk : Bool
  durationFinite : Bool
  duration : ℚ
  exportContextOk : Bool
  frameOutcome : ℕ → FrameOutcome
  encodeOk : Bool
  readOk : Bool

/-- The observable result of one handleExport run: every setExportState
call in order, the indices of the frame files written to the encoder store,
the final value of the totalFrames variable, whether outputName was ever
assigned (line 817), the frame indices whose deletion the finally block
attempts, whether deletion of the output file is attempted, and the error
the catch block reported (none on success). -/
structure ExportRun where
  states : List ExportState
  writtenFrames : List ℕ
  totalFrames : ℕ
  outputNamed : Bool
  deletedFrames : List ℕ
  outputDeleted : Bool
  result : Option ExportError

/-- The maxFrames cap of line 704: 300 for free, 600 for premium. -/
def exportMaxFrames (isFreeTier : Bool) : ℕ := if isFreeTier then 300 else 600

/-- The error state published by the catch block (lines 864-869): status
error, progress reset to 0, the categorized message. -/
def errorState (format : ExportFormat) (e : ExportError) : ExportState :=
  { status := ExportStatus.error, format := some format, progress := 0,
    message := some (ExportMessage.exportError e) }

/-- The state published at line 656. -/
def initializingState (format : ExportFormat) : ExportState :=
  { status := ExportStatus.initializing, format := some format, progress := 1/20,
    message := some ExportMessage.loadingEncoder }

/-- The state published at line 659. -/
def samplingState (format : ExportFormat) : ExportState :=
  { status := ExportStatus.sampling, format := some format, progress := 1/10,
    message := some ExportMessage.samplingFrames }

/-- The truncation notice published at lines 710-717. -/
def truncationState (format : ExportFormat) (totalFrames : ℕ) : ExportState :=
  { status := ExportStatus.sampling, format := some format, progress := 1/10,
    message := some (ExportMessage.truncatedTo totalFrames) }

/-- The per-frame progress state published at lines 802-807 after frame
index was written: progress 0.1 + (index / totalFrames) * 0.5. -/
def capturedState (format : ExportFormat) (index totalFrames : ℕ) : ExportState :=
  { status := ExportStatus.sampling, format := some format,
    progress := 1/10 + ((index : ℚ) / (totalFrames : ℚ)) * (1/2),
    message := some (ExportMessage.capturedFrame index totalFrames) }

/-- The state published at line 827. -/
def encodingState (format : ExportFormat) : ExportState :=
  { status := ExportStatus.encoding, format := some format, progress := 7/10,
    message := some ExportMessage.encodingMedia }

/-- The state published at line 830. -/
def deliveringState (format : ExportFormat) : ExportState :=
  { status := ExportStatus.delivering, format := some format, progress := 9/10,
    message := some ExportMessage.preparingDownload }

/-- The state published at line 845. -/
def doneState (format : ExportFormat) : ExportState :=
  { status := ExportStatus.done, format := some format, progress := 1,
    message := some (ExportMessage.exported format) }

/-- The finally block of handleExport (lines 871-904): attempt to delete
frame_0000.png .. frame_(totalFrames-1).png, each delete wrapped in its own
try/catch so a missing file is not an error, then attempt to delete the
output file exactly when outputName was assigned.  totalFrames here is the
value the variable holds when the run ends (0 if the run failed before the
frame count was computed at line 706). -/
def finishRun (states : List ExportState) (written : List ℕ) (totalFrames : ℕ)
    (outputNamed : Bool) (result : Option ExportError) : ExportRun :=
  { states := states, writtenFrames := written, totalFrames := totalFrames,
    outputNamed := outputNamed,
    deletedFrames := List.range totalFrames,
    outputDeleted := outputNamed,
    result := result }

/-- The partial results of the sampling loop: frame indices written so far,
progress states published so far, and the index at which a frame write
failed fatally (none if the loop ran to the end). -/
structure SampleResult where
  written : List ℕ
  states : List ExportState
  fatal : Option ℕ

/-- The sampling loop of lines 727-808 over the listed indices.  A failed
seek or a null rasterization skips the instant (continue); a failed canvas
encode or writeFile throws, aborting the loop; a successful write appends
the frame file and publishes a sampling progress state
0.1 + (index / totalFrames) * 0.5 (line 805). -/
def sampleFrames (outcome : ℕ → FrameOutcome) (format : ExportFormat)
    (totalFrames : ℕ) : List ℕ → SampleResult
  | [] => { written := [], states := [], fatal := none }
  | i :: rest =>
    match outcome i with
    | FrameOutcome.seekFailed => sampleFrames outcome format totalFrames rest
    | FrameOutcome.rasterNull => sampleFrames outcome format totalFrames rest
    | FrameOutcome.writeFailed => { written := [], states := [], fatal := some i }
    | FrameOutcome.ok =>
      let r := sampleFrames outcome format totalFrames rest
      { written := i :: r.written
        states := capturedState format i totalFrames :: r.states
        fatal := r.fatal }

/-- handleExport (lines 635-905) as a function of the external-call record.
The trace follows the source exactly: initializing at 0.05, sampling at 0.1
(before the metadata load), the duration validation of lines 671-674, the
frame-count computation of lines 701-717 including the truncation notice,
the canvas context check, the sampling loop, the dead totalFrames === 0
check of line 813, outputName assignment, encoding at 0.7, delivering at
0.9, done at 1, with any thrown error caught at line 848 and published as
an error state with progress 0; the finally block is finishRun. -/
def handleExport (env : ExportEnv) (isFreeTier : Bool) (format : ExportFormat) : ExportRun :=
  let s0 : List ExportState := [initializingState format]
  if env.ffmpegLoadOk = false then
    finishRun (s0 ++ [errorState format ExportError.encoderUnavailable]) [] 0 false
      (some ExportError.encoderUnavailable)
  else
    let s1 := s0 ++ [samplingState format]
    if env.metadataOk = false then
      finishRun (s1 ++ [errorState format ExportError.videoUnreadable]) [] 0 false
        (some ExportError.videoUnreadable)
    else if env.durationFinite = false ∨ env.duration ≤ 0 then
      finishRun (s1 ++ [errorState format ExportError.durationUnavailable]) [] 0 false
        (some ExportError.durationUnavailable)
    else
      let fps := (tierConfig isFreeTier).fps
      let idealFrames : ℤ := ⌈env.duration * (fps : ℚ)⌉
      let totalFrames : ℕ := (min idealFrames (exportMaxFrames isFreeTier : ℤ)).toNat
      let s2 :=
        if (totalFrames : ℤ) < idealFrames then s1 ++ [truncationState format totalFrames]
        else s1
      if env.exportContextOk = false then
        finishRun (s2 ++ [errorState format ExportError.canvasUnavailable]) [] totalFrames
          false (some ExportError.canvasUnavailable)
      else
        let sample := sampleFrames env.frameOutcome format totalFrames (List.range totalFrames)
        match sample.fatal with
        | some i =>
          finishRun (s2 ++ sample.states ++ [errorState format (ExportError.frameProcessingFailed (i + 1))])
            sample.written totalFrames false (some (ExportError.frameProcessingFailed (i + 1)))
        | none =>
          if totalFrames = 0 then
            finishRun (s2 ++ sample.states ++ [errorState format ExportError.noFramesCaptured])
              sample.written totalFrames false (some ExportError.noFramesCaptured)
          else
            let s3 := s2 ++ sample.states ++ [encodingState format]
            if env.encodeOk = false then
              finishRun (s3 ++ [errorState format ExportError.encodingFailed]) sample.written
                totalFrames true (some ExportError.encodingFailed)
            else
              let s4 := s3 ++ [deliveringState format]
              if env.readOk = false then
                finishRun (s4 ++ [errorState format ExportError.deliveryFailed]) sample.written
                  totalFrames true (some ExportError.deliveryFailed)
              else
                finishRun (s4 ++ [doneState format]) sample.written totalFrames true none

/-- A 120 second free-tier source with every external call succeeding:
the ideal frame count 1200 exceeds the free cap 300. -/
def envLongFree : ExportEnv :=
  { ffmpegLoadOk := true, metadataOk := true, durationFinite := true, duration := 120,
    exportContextOk := true, frameOutcome := fun _ => FrameOutcome.ok,
    encodeOk := true, readOk := true }

/-- A 1 second free-tier source (computed frame count 10) where every
seekVideo call rejects, so every sampling instant is skipped and no frame
file is ever written; the encoder then fails on its empty input set. -/
def allSkippedEnv : ExportEnv :=
  { ffmpegLoadOk := true, metadataOk := true, durationFinite := true, duration := 1,
    exportContextOk := true, frameOutcome := fun _ => FrameOutcome.seekFailed,
    encodeOk := false, readOk := true }

/-- A 1 second free-tier source where sampling succeeds at every instant
and the encoder execution then fails. -/
def encodeFailEnv : ExportEnv :=
  { ffmpegLoadOk := true, metadataOk := true, durationFinite := true, duration := 1,
    exportContextOk := true, frameOutcome := fun _ => FrameOutcome.ok,
    encodeOk := false, readOk := true }

/-- Rasterization factors through the clamped contrast: two contrast inputs
with the same clamp produce identical output. -/
theorem asciiFromVideo_clamp_congr (video : VideoMeta) (contextOk : Bool) (data : ℕ → ℕ)
    (charset : List Char) (scheme : Scheme) (charPixelSize : ℚ) (c1 c2 : ℚ)
    (h : clampContrast c1 = clampContrast c2) :
    asciiFromVideo video contextOk data charset scheme charPixelSize c1
      = asciiFromVideo video contextOk data charset scheme charPixelSize c2 := by
  unfold asciiFromVideo
  rw [h]

/-- C10: for every source width and height (including zero, which falls back
to the default aspect ratio) and every positive character pixel size, the
grid geometry resolver returns at least 16 columns and at least 12 rows;
it is a total function with no error condition. -/
theorem computeGrid_floor_values (video : VideoMeta) (charPixelSize : ℚ)
    (h : 0 < charPixelSize) :
    16 ≤ (computeGrid video charPixelSize).width ∧
      12 ≤ (computeGrid video charPixelSize).height := by
  unfold computeGrid
  exact ⟨le_max_left _ _, le_max_left _ _⟩

theorem computeGrid_floor_values_witness :
    (0 : ℚ) < 10 ∧
      (16 ≤ (computeGrid ⟨0, 0⟩ 10).width ∧ 12 ≤ (computeGrid ⟨0, 0⟩ 10).height) :=
  ⟨by norm_num, computeGrid_floor_values ⟨0, 0⟩ 10 (by norm_num)⟩

/-- C9: for a fixed contrast, the adjusted brightness of line 150 is a
monotonically non-decreasing function of the raw luminance of line 115-117:
increasing luminance never decreases the adjusted value.  The contrast that
reaches line 150 is the clamped one of line 140, which is at least 0.2. -/
theorem adjustedBrightness_monotone (contrast : ℚ) (r1 g1 b1 r2 g2 b2 : ℚ)
    (h : brightnessFor r1 g1 b1 ≤ brightnessFor r2 g2 b2) :
    adjustedBrightness (brightnessFor r1 g1 b1) (clampContrast contrast)
      ≤ adjustedBrightness (brightnessFor r2 g2 b2) (clampContrast contrast) := by
  have hk : (0 : ℚ) ≤ clampContrast contrast :=
    le_trans (by norm_num) (le_max_left _ _)
  unfold adjustedBrightness
  have hmul : (brightnessFor r1 g1 b1 - 1/2) * clampContrast contrast
      ≤ (brightnessFor r2 g2 b2 - 1/2) * clampContrast contrast :=
    mul_le_mul_of_nonneg_right (by linarith) hk
  exact max_le_max (le_refl 0) (min_le_min (le_refl 1) (by linarith))

theorem adjustedBrightness_monotone_witness :
    brightnessFor 10 10 10 ≤ brightnessFor 200 200 200 ∧
      adjustedBrightness (brightnessFor 10 10 10) (clampContrast 1)
        ≤ adjustedBrightness (brightnessFor 200 200 200) (clampContrast 1) :=
  ⟨by norm_num [brightnessFor],
    adjustedBrightness_monotone 1 10 10 10 200 200 200 (by norm_num [brightnessFor])⟩

/-- C8: contrast inputs are clamped to the interval from 0.2 to 2.5 inside
the rasterizer: contrast 5.0 produces exactly the same AsciiFrame as 2.5,
and contrast -1.0 exactly the same AsciiFrame as 0.2, for every frame,
palette, scheme and character size. -/
theorem asciiFromVideo_contrast_clamped (video : VideoMeta) (contextOk : Bool)
    (data : ℕ → ℕ) (charset : List Char) (scheme : Scheme) (charPixelSize : ℚ) :
    asciiFromVideo video contextOk data charset scheme charPixelSize 5
        = asciiFromVideo video contextOk data charset scheme charPixelSize (25/10) ∧
      asciiFromVideo video contextOk data charset scheme charPixelSize (-1)
        = asciiFromVideo video contextOk data charset scheme charPixelSize (2/10) := by
  constructor <;>
    apply asciiFromVideo_clamp_congr <;>
    · unfold clampContrast
      norm_num

/-- C4: rasterization is deterministic: two calls with identical video
metadata, context availability, frame pixel data, palette, scheme, size and
contrast produce identical results, and in particular when both succeed the
two frames agree in every field (dimensions and, cell for cell, glyph,
color and brightness). -/
theorem asciiFromVideo_deterministic (v1 v2 : VideoMeta) (ctx1 ctx2 : Bool)
    (data1 data2 : ℕ → ℕ) (cs1 cs2 : List Char) (s1 s2 : Scheme)
    (p1 p2 c1 c2 : ℚ)
    (hv : v1 = v2) (hctx : ctx1 = ctx2) (hdata : data1 = data2)
    (hcs : cs1 = cs2) (hs : s1 = s2) (hp : p1 = p2) (hc : c1 = c2) :
    asciiFromVideo v1 ctx1 data1 cs1 s1 p1 c1
        = asciiFromVideo v2 ctx2 data2 cs2 s2 p2 c2 ∧
      ∀ f1 f2, asciiFromVideo v1 ctx1 data1 cs1 s1 p1 c1 = some f1 →
        asciiFromVideo v2 ctx2 data2 cs2 s2 p2 c2 = some f2 →
        f1.width = f2.width ∧ f1.height = f2.height ∧
          f1.charWidth = f2.charWidth ∧ f1.charHeight = f2.charHeight ∧
          f1.rows = f2.rows := by
  subst hv hctx hdata hcs hs hp hc
  refine ⟨rfl, ?_⟩
  intro f1 f2 h1 h2
  rw [h1] at h2
  cases h2
  exact ⟨rfl, rfl, rfl, rfl, rfl⟩

theorem asciiFromVideo_deterministic_witness :
    asciiFromVideo ⟨640, 360⟩ true (fun _ => 0) [' '] ⟨255, 0⟩ 10 1
        = asciiFromVideo ⟨640, 360⟩ true (fun _ => 0) [' '] ⟨255, 0⟩ 10 1 ∧
      ∀ f1 f2,
        asciiFromVideo ⟨640, 360⟩ true (fun _ => 0) [' '] ⟨255, 0⟩ 10 1 = some f1 →
        asciiFromVideo ⟨640, 360⟩ true (fun _ => 0) [' '] ⟨255, 0⟩ 10 1 = some f2 →
        f1.width = f2.width ∧ f1.height = f2.height ∧
          f1.charWidth = f2.charWidth ∧ f1.charHeight = f2.charHeight ∧
          f1.rows = f2.rows :=
  asciiFromVideo_deterministic ⟨640, 360⟩ ⟨640, 360⟩ true true
    (fun _ => 0) (fun _ => 0) [' '] [' '] ⟨255, 0⟩ ⟨255, 0⟩ 10 10 1 1
    rfl rfl rfl rfl rfl rfl rfl

theorem seekStep_of_resolved (st : SeekState) (e : SeekEvent) (h : st.resolved = true) :
    seekStep st e = st := by
  cases e <;> simp [seekStep, seekFinish, h]

theorem seekRun_of_resolved (l : List SeekEvent) (st : SeekState) (h : st.resolved = true) :
    l.foldl seekStep st = st := by
  induction l with
  | nil => rfl
  | cons e rest ih => simp [List.foldl_cons, seekStep_of_resolved st e h, ih]

theorem seekRun_currentTime (l : List SeekEvent) (st : SeekState) :
    (l.foldl seekStep st).currentTime = st.currentTime := by
  induction l generalizing st with
  | nil => rfl
  | cons e rest ih =>
    rw [List.foldl_cons, ih]
    cases e <;> simp [seekStep, seekFinish] <;> split <;> rfl

/-- C6: the frame-accurate seek rejects exactly when the synchronous seek
request throws; in every other case, including when no seeked signal
arrives before the timeout (the timeout callback still calls finish), it
resolves successfully with the video paused. -/
theorem seekVideo_settles (duration : JsNum) (time : ℚ) (assignThrows : Bool)
    (events : List SeekEvent) (h : events ≠ []) :
    ((seekVideo duration time assignThrows events).outcome
        = some SeekSettle.rejectedSeek ↔ assignThrows = true) ∧
      (assignThrows = false →
        (seekVideo duration time assignThrows events).outcome
            = some SeekSettle.resolvedSeek ∧
          (seekVideo duration time assignThrows events).paused = true) := by
  cases assignThrows with
  | true => simp [seekVideo, seekFail, seekRun_of_resolved]
  | false =>
    cases events with
    | nil => exact absurd rfl h
    | cons e rest =>
      cases e <;> simp [seekVideo, seekStep, seekFinish, seekRun_of_resolved]

theorem seekVideo_settles_witness :
    ([SeekEvent.timeoutFired] ≠ ([] : List SeekEvent)) ∧
      (((seekVideo (JsNum.finite 10) 3 false [SeekEvent.timeoutFired]).outcome
          = some SeekSettle.rejectedSeek ↔ false = true) ∧
        (false = false →
          (seekVideo (JsNum.finite 10) 3 false [SeekEvent.timeoutFired]).outcome
              = some SeekSettle.resolvedSeek ∧
            (seekVideo (JsNum.finite 10) 3 false [SeekEvent.timeoutFired]).paused = true)) :=
  ⟨by simp, seekVideo_settles (JsNum.finite 10) 3 false [SeekEvent.timeoutFired] (by simp)⟩

/-- C7 counterexample: with an Infinity duration (a live stream) and a
negative requested time, the timestamp actually applied to the stream is
the raw request, which lies outside every interval of the form
[0, duration - 0.001]; clampTime does not clamp non-finite durations. -/
theorem clampTime_claim_counterexample :
    (seekVideo JsNum.infinity (-5) false [SeekEvent.timeoutFired]).currentTime
        = some (-5) ∧
      ¬ (0 ≤ (-5 : ℚ)) := by
  constructor
  · simp [seekVideo, seekStep, seekFinish, clampTime]
  · norm_num

/-- C7 amended: for a finite stream duration of at least 0.001, the target
applied to the stream equals min(max(time, 0), max(0, duration - 0.001))
and lies in the interval [0, duration - 0.001]; when the duration is
Infinity or NaN the requested time is applied unchanged. -/
theorem clampTime_amended (d t : ℚ) (events : List SeekEvent)
    (h : 1/1000 ≤ d) :
    clampTime (JsNum.finite d) t = min (max t 0) (max 0 (d - 1/1000)) ∧
      0 ≤ clampTime (JsNum.finite d) t ∧
      clampTime (JsNum.finite d) t ≤ d - 1/1000 ∧
      (seekVideo (JsNum.finite d) t false events).currentTime
          = some (clampTime (JsNum.finite d) t) ∧
      clampTime JsNum.infinity t = t ∧
      clampTime JsNum.nan t = t := by
  have hmax : max 0 (d - 1/1000) = d - 1/1000 := max_eq_right (by linarith)
  refine ⟨rfl, ?_, ?_, ?_, rfl, rfl⟩
  · exact le_min (le_max_right t 0) (le_max_left 0 (d - 1/1000))
  · calc clampTime (JsNum.finite d) t ≤ max 0 (d - 1/1000) := min_le_right _ _
      _ = d - 1/1000 := hmax
  · simp [seekVideo, seekRun_currentTime]

theorem clampTime_amended_witness :
    (1/1000 ≤ (1 : ℚ)) ∧
      (clampTime (JsNum.finite 1) 5 = min (max 5 0) (max 0 (1 - 1/1000)) ∧
        0 ≤ clampTime (JsNum.finite 1) 5 ∧
        clampTime (JsNum.finite 1) 5 ≤ 1 - 1/1000 ∧
        (seekVideo (JsNum.finite 1) 5 false []).currentTime
            = some (clampTime (JsNum.finite 1) 5) ∧
        clampTime JsNum.infinity 5 = 5 ∧
        clampTime JsNum.nan 5 = 5) :=
  ⟨by norm_num, clampTime_amended 1 5 [] (by norm_num)⟩

/-- Every frame index the sampling loop writes comes from the index list it
was given. -/
theorem sampleFrames_written_mem (outcome : ℕ → FrameOutcome) (format : ExportFormat)
    (totalFrames : ℕ) :
    ∀ l : List ℕ, ∀ i ∈ (sampleFrames outcome format totalFrames l).written, i ∈ l := by
  intro l
  induction l with
  | nil => intro i hi; cases hi
  | cons j rest ih =>
    intro i hi
    cases houtcome : outcome j with
    | seekFailed =>
      rw [sampleFrames, houtcome] at hi
      exact List.mem_cons_of_mem j (ih i hi)
    | rasterNull =>
      rw [sampleFrames, houtcome] at hi
      exact List.mem_cons_of_mem j (ih i hi)
    | writeFailed =>
      rw [sampleFrames, houtcome] at hi
      cases hi
    | ok =>
      rw [sampleFrames, houtcome] at hi
      rcases List.mem_cons.mp hi with h | h
      · exact h ▸ List.mem_cons_self j rest
      · exact List.mem_cons_of_mem j (ih i h)

/-- If no instant has a fatal write failure, the loop runs to the end. -/
theorem sampleFrames_fatal_none (outcome : ℕ → FrameOutcome) (format : ExportFormat)
    (totalFrames : ℕ) (ho : ∀ i, outcome i ≠ FrameOutcome.writeFailed) :
    ∀ l : List ℕ, (sampleFrames outcome format totalFrames l).fatal = none := by
  intro l
  induction l with
  | nil => rfl
  | cons j rest ih =>
    cases houtcome : outcome j with
    | seekFailed => rw [sampleFrames, houtcome]; exact ih
    | rasterNull => rw [sampleFrames, houtcome]; exact ih
    | writeFailed => exact absurd houtcome (ho j)
    | ok => rw [sampleFrames, houtcome]; exact ih

/-- Every state the sampling loop publishes carries the sampling status. -/
theorem sampleFrames_states_sampling (outcome : ℕ → FrameOutcome) (format : ExportFormat)
    (totalFrames : ℕ) :
    ∀ l : List ℕ, ∀ s ∈ (sampleFrames outcome format totalFrames l).states,
      s.status = ExportStatus.sampling := by
  intro l
  induction l with
  | nil => intro s hs; cases hs
  | cons j rest ih =>
    intro s hs
    cases houtcome : outcome j with
    | seekFailed => rw [sampleFrames, houtcome] at hs; exact ih s hs
    | rasterNull => rw [sampleFrames, houtcome] at hs; exact ih s hs
    | writeFailed => rw [sampleFrames, houtcome] at hs; cases hs
    | ok =>
      rw [sampleFrames, houtcome] at hs
      rcases List.mem_cons.mp hs with h | h
      · rw [h]
        rfl
      · exact ih s h

/-- If every instant is skipped, the loop writes nothing and publishes
nothing. -/
theorem sampleFrames_all_skipped (outcome : ℕ → FrameOutcome) (format : ExportFormat)
    (totalFrames : ℕ) (ho : ∀ i, outcome i = FrameOutcome.seekFailed) :
    ∀ l : List ℕ, sampleFrames outcome format totalFrames l
      = { written := [], states := [], fatal := none } := by
  intro l
  induction l with
  | nil => rfl
  | cons j rest ih => rw [sampleFrames, ho j]; exact ih

/-- C1: for every export run, success or failure, regardless of which phase
failed, the cleanup step attempts to delete exactly the per-frame input
files of index 0 .. totalFrames - 1 (totalFrames being the value the
computed frame-count variable holds when the run ends), every frame file
actually written is among the attempted deletions, and the output file
deletion is attempted exactly when an output name was assigned; every
delete is best-effort. -/
theorem finishRun_cleanup (states : List ExportState) (written : List ℕ) (totalFrames : ℕ)
    (outputNamed : Bool) (result : Option ExportError)
    (hw : ∀ i ∈ written, i ∈ List.range totalFrames) :
    (finishRun states written totalFrames outputNamed result).deletedFrames
        = List.range (finishRun states written totalFrames outputNamed result).totalFrames ∧
      (∀ i ∈ (finishRun states written totalFrames outputNamed result).writtenFrames,
        i ∈ (finishRun states written totalFrames outputNamed result).deletedFrames) ∧
      (finishRun states written totalFrames outputNamed result).outputDeleted
        = (finishRun states written totalFrames outputNamed result).outputNamed :=
  ⟨rfl, hw, rfl⟩

theorem handleExport_cleanup (env : ExportEnv) (isFreeTier : Bool) (format : ExportFormat) :
    (handleExport env isFreeTier format).deletedFrames
        = List.range (handleExport env isFreeTier format).totalFrames ∧
      (∀ i ∈ (handleExport env isFreeTier format).writtenFrames,
        i ∈ (handleExport env isFreeTier format).deletedFrames) ∧
      (handleExport env isFreeTier format).outputDeleted
        = (handleExport env isFreeTier format).outputNamed := by
  obtain ⟨load, metaOk, fin, dur, ctx, fo, enc, read⟩ := env
  unfold handleExport
  dsimp only
  cases load with
  | false => exact finishRun_cleanup _ _ _ _ _ (fun i hi => absurd hi (List.not_mem_nil i))
  | true =>
  cases metaOk with
  | false => exact finishRun_cleanup _ _ _ _ _ (fun i hi => absurd hi (List.not_mem_nil i))
  | true =>
  cases fin with
  | false => exact finishRun_cleanup _ _ _ _ _ (fun i hi => absurd hi (List.not_mem_nil i))
  | true =>
  rcases le_or_lt dur 0 with hd | hd
  · rw [if_pos (Or.inr hd)]
    exact finishRun_cleanup _ _ _ _ _ (fun i hi => absurd hi (List.not_mem_nil i))
  · have hdcond : ¬ (true = false ∨ dur ≤ 0) := by
      rintro (habs | habs)
      · simp at habs
      · exact absurd habs hd.not_le
    rw [if_neg hdcond]
    cases ctx with
    | false => exact finishRun_cleanup _ _ _ _ _ (fun i hi => absurd hi (List.not_mem_nil i))
    | true =>
    rcases hfat : (sampleFrames fo format
        ((min ⌈dur * ((tierConfig isFreeTier).fps : ℚ)⌉ (exportMaxFrames isFreeTier : ℤ)).toNat)
        (List.range
          ((min ⌈dur * ((tierConfig isFreeTier).fps : ℚ)⌉ (exportMaxFrames isFreeTier : ℤ)).toNat))).fatal
      with - | i
    · by_cases h0 :
        ((min ⌈dur * ((tierConfig isFreeTier).fps : ℚ)⌉ (exportMaxFrames isFreeTier : ℤ)).toNat) = 0
      · rw [if_pos h0]
        exact finishRun_cleanup _ _ _ _ _
          (fun i hi => sampleFrames_written_mem fo format _ (List.range _) i hi)
      · rw [if_neg h0]
        cases enc with
        | false =>
          exact finishRun_cleanup _ _ _ _ _
            (fun i hi => sampleFrames_written_mem fo format _ (List.range _) i hi)
        | true =>
        cases read with
        | false =>
          exact finishRun_cleanup _ _ _ _ _
            (fun i hi => sampleFrames_written_mem fo format _ (List.range _) i hi)
        | true =>
          exact finishRun_cleanup _ _ _ _ _
            (fun i hi => sampleFrames_written_mem fo format _ (List.range _) i hi)
    · exact finishRun_cleanup _ _ _ _ _
        (fun j hj => sampleFrames_written_mem fo format _ (List.range _) j hj)

theorem handleExport_cleanup_witness :
    (handleExport
          { ffmpegLoadOk := true, metadataOk := true, durationFinite := true, duration := 2,
            exportContextOk := true, frameOutcome := fun _ => FrameOutcome.ok,
            encodeOk := true, readOk := true } true ExportFormat.mp4).deletedFrames
        = List.range (handleExport
          { ffmpegLoadOk := true, metadataOk := true, durationFinite := true, duration := 2,
            exportContextOk := true, frameOutcome := fun _ => FrameOutcome.ok,
            encodeOk := true, readOk := true } true ExportFormat.mp4).totalFrames ∧
      (∀ i ∈ (handleExport
          { ffmpegLoadOk := true, metadataOk := true, durationFinite := true, duration := 2,
            exportContextOk := true, frameOutcome := fun _ => FrameOutcome.ok,
            encodeOk := true, readOk := true } true ExportFormat.mp4).writtenFrames,
        i ∈ (handleExport
          { ffmpegLoadOk := true, metadataOk := true, durationFinite := true, duration := 2,
            exportContextOk := true, frameOutcome := fun _ => FrameOutcome.ok,
            encodeOk := true, readOk := true } true ExportFormat.mp4).deletedFrames) ∧
      (handleExport
          { ffmpegLoadOk := true, metadataOk := true, durationFinite := true, duration := 2,
            exportContextOk := true, frameOutcome := fun _ => FrameOutcome.ok,
            encodeOk := true, readOk := true } true ExportFormat.mp4).outputDeleted
        = (handleExport
          { ffmpegLoadOk := true, metadataOk := true, durationFinite := true, duration := 2,
            exportContextOk := true, frameOutcome := fun _ => FrameOutcome.ok,
            encodeOk := true, readOk := true } true ExportFormat.mp4).outputNamed :=
  handleExport_cleanup
    { ffmpegLoadOk := true, metadataOk := true, durationFinite := true, duration := 2,
      exportContextOk := true, frameOutcome := fun _ => FrameOutcome.ok,
      encodeOk := true, readOk := true } true ExportFormat.mp4

/-- C2: once the export reaches the frame-count computation (encoder
loaded, metadata read, finite positive duration), the total frame count
equals min(ceil(duration * tierFrameRate), tierMaxFrames), never exceeds
the tier cap (300 free, 600 premium) however long the source is, is still
positive (the job continues sampling), and whenever the ideal count
exceeds the cap a truncation notice is published among the state
updates. -/
theorem handleExport_frame_count (env : ExportEnv) (isFreeTier : Bool) (format : ExportFormat)
    (hload : env.ffmpegLoadOk = true) (hmeta : env.metadataOk = true)
    (hfin : env.durationFinite = true) (hdur : 0 < env.duration) :
    ((handleExport env isFreeTier format).totalFrames : ℤ)
        = min ⌈env.duration * ((tierConfig isFreeTier).fps : ℚ)⌉ (exportMaxFrames isFreeTier : ℤ) ∧
      (handleExport env isFreeTier format).totalFrames ≤ exportMaxFrames isFreeTier ∧
      0 < (handleExport env isFreeTier format).totalFrames ∧
      ((exportMaxFrames isFreeTier : ℤ) < ⌈env.duration * ((tierConfig isFreeTier).fps : ℚ)⌉ →
        truncationState format (handleExport env isFreeTier format).totalFrames
          ∈ (handleExport env isFreeTier format).states) := by
  obtain ⟨load, metaOk, fin, dur, ctx, fo, enc, read⟩ := env
  dsimp only at hload hmeta hfin hdur ⊢
  subst hload
  subst hmeta
  subst hfin
  have hfps : (0 : ℚ) < ((tierConfig isFreeTier).fps : ℚ) := by
    cases isFreeTier <;> norm_num [tierConfig, FREE_EXPORT_CONFIG, PREMIUM_EXPORT_CONFIG]
  have hideal : 0 < ⌈dur * ((tierConfig isFreeTier).fps : ℚ)⌉ := Int.ceil_pos.mpr (mul_pos hdur hfps)
  have hcap : (0 : ℤ) ≤ (exportMaxFrames isFreeTier : ℤ) := Int.ofNat_nonneg _
  have hcapPos : 0 < exportMaxFrames isFreeTier := by
    cases isFreeTier <;> norm_num [exportMaxFrames]
  unfold handleExport
  dsimp only
  rw [if_neg (show ¬ (true = false) by simp), if_neg (show ¬ (true = false) by simp)]
  set T := (min ⌈dur * ((tierConfig isFreeTier).fps : ℚ)⌉ (exportMaxFrames isFreeTier : ℤ)).toNat with hT
  have htn : (T : ℤ) = min ⌈dur * ((tierConfig isFreeTier).fps : ℚ)⌉ (exportMaxFrames isFreeTier : ℤ) := by
    rw [hT]
    exact Int.toNat_of_nonneg (le_min hideal.le hcap)
  have hdcond : ¬ (true = false ∨ dur ≤ 0) := by
    rintro (habs | habs)
    · simp at habs
    · exact absurd habs hdur.not_le
  rw [if_neg hdcond]
  have hTpos : 0 < T := by omega
  cases ctx with
  | false =>
    rw [if_pos rfl]
    dsimp only [finishRun]
    refine ⟨htn, by omega, hTpos, fun hlt => ?_⟩
    rw [if_pos (show (T : ℤ) < ⌈dur * ((tierConfig isFreeTier).fps : ℚ)⌉ by omega)]
    simp
  | true =>
  rw [if_neg (show ¬ (true = false) by simp)]
  rcases hfat : (sampleFrames fo format T (List.range T)).fatal with - | i
  · rw [if_neg hTpos.ne']
    cases enc with
    | false =>
      rw [if_pos rfl]
      dsimp only [finishRun]
      refine ⟨htn, by omega, hTpos, fun hlt => ?_⟩
      rw [if_pos (show (T : ℤ) < ⌈dur * ((tierConfig isFreeTier).fps : ℚ)⌉ by omega)]
      simp
    | true =>
    rw [if_neg (show ¬ (true = false) by simp)]
    cases read with
    | false =>
      rw [if_pos rfl]
      dsimp only [finishRun]
      refine ⟨htn, by omega, hTpos, fun hlt => ?_⟩
      rw [if_pos (show (T : ℤ) < ⌈dur * ((tierConfig isFreeTier).fps : ℚ)⌉ by omega)]
      simp
    | true =>
      rw [if_neg (show ¬ (true = false) by simp)]
      dsimp only [finishRun]
      refine ⟨htn, by omega, hTpos, fun hlt => ?_⟩
      rw [if_pos (show (T : ℤ) < ⌈dur * ((tierConfig isFreeTier).fps : ℚ)⌉ by omega)]
      simp
  · dsimp only [finishRun]
    refine ⟨htn, by omega, hTpos, fun hlt => ?_⟩
    rw [if_pos (show (T : ℤ) < ⌈dur * ((tierConfig isFreeTier).fps : ℚ)⌉ by omega)]
    simp

theorem handleExport_frame_count_witness :
    envLongFree.ffmpegLoadOk = true ∧
      envLongFree.metadataOk = true ∧
      envLongFree.durationFinite = true ∧
      0 < envLongFree.duration ∧
      (((handleExport envLongFree true ExportFormat.mp4).totalFrames : ℤ)
          = min ⌈envLongFree.duration * ((tierConfig true).fps : ℚ)⌉ (exportMaxFrames true : ℤ) ∧
        (handleExport envLongFree true ExportFormat.mp4).totalFrames ≤ exportMaxFrames true ∧
        0 < (handleExport envLongFree true ExportFormat.mp4).totalFrames ∧
        ((exportMaxFrames true : ℤ) < ⌈envLongFree.duration * ((tierConfig true).fps : ℚ)⌉ →
          truncationState ExportFormat.mp4
              (handleExport envLongFree true ExportFormat.mp4).totalFrames
            ∈ (handleExport envLongFree true ExportFormat.mp4).states)) :=
  ⟨rfl, rfl, rfl, by norm_num [envLongFree],
    handleExport_frame_count envLongFree true ExportFormat.mp4 rfl rfl rfl
      (by norm_num [envLongFree])⟩

/-- The totalFrames === 0 guard of line 813 can never fire: it is only
reached after the duration has been validated positive, which forces the
computed frame count to be at least 1; so no run ever reports the
no-frames-captured error, whatever happens to the individual frames. -/
theorem handleExport_never_noFramesCaptured (env : ExportEnv) (isFreeTier : Bool)
    (format : ExportFormat) :
    (handleExport env isFreeTier format).result ≠ some ExportError.noFramesCaptured := by
  obtain ⟨load, metaOk, fin, dur, ctx, fo, enc, read⟩ := env
  unfold handleExport
  dsimp only
  cases load with
  | false => simp [finishRun]
  | true =>
  cases metaOk with
  | false => simp [finishRun]
  | true =>
  cases fin with
  | false => simp [finishRun]
  | true =>
  rcases le_or_lt dur 0 with hd | hd
  · rw [if_pos (Or.inr hd)]
    simp [finishRun]
  · have hdcond : ¬ (true = false ∨ dur ≤ 0) := by
      rintro (habs | habs)
      · simp at habs
      · exact absurd habs hd.not_le
    rw [if_neg hdcond]
    have hfps : (0 : ℚ) < ((tierConfig isFreeTier).fps : ℚ) := by
      cases isFreeTier <;> norm_num [tierConfig, FREE_EXPORT_CONFIG, PREMIUM_EXPORT_CONFIG]
    have hideal : 0 < ⌈dur * ((tierConfig isFreeTier).fps : ℚ)⌉ := Int.ceil_pos.mpr (mul_pos hd hfps)
    have hcapPos : 0 < exportMaxFrames isFreeTier := by
      cases isFreeTier <;> norm_num [exportMaxFrames]
    have hTpos : 0 < (min ⌈dur * ((tierConfig isFreeTier).fps : ℚ)⌉ (exportMaxFrames isFreeTier : ℤ)).toNat := by
      omega
    cases ctx with
    | false =>
      rw [if_pos rfl]
      simp [finishRun]
    | true =>
    rw [if_neg (show ¬ (true = false) by simp)]
    rcases hfat : (sampleFrames fo format
        ((min ⌈dur * ((tierConfig isFreeTier).fps : ℚ)⌉ (exportMaxFrames isFreeTier : ℤ)).toNat)
        (List.range
          ((min ⌈dur * ((tierConfig isFreeTier).fps : ℚ)⌉ (exportMaxFrames isFreeTier : ℤ)).toNat))).fatal
      with - | i
    · rw [if_neg hTpos.ne']
      cases enc with
      | false =>
        rw [if_pos rfl]
        simp [finishRun]
      | true =>
      rw [if_neg (show ¬ (true = false) by simp)]
      cases read with
      | false =>
        rw [if_pos rfl]
        simp [finishRun]
      | true =>
        rw [if_neg (show ¬ (true = false) by simp)]
        simp [finishRun]
    · simp [finishRun]

/-- C3: concrete run in which every sampling instant is skipped.  Zero
frames are submitted to the encoder, yet the run does not fail with the
no-frames-captured error: the guard compares the planned frame count (10)
with zero, so the job proceeds to the encoding phase on an empty input set
and the eventual failure surfaces as an encoding failure instead. -/
theorem handleExport_all_skipped_reaches_encoding :
    (handleExport allSkippedEnv true ExportFormat.mp4).writtenFrames = [] ∧
      (handleExport allSkippedEnv true ExportFormat.mp4).result
          ≠ some ExportError.noFramesCaptured ∧
      (handleExport allSkippedEnv true ExportFormat.mp4).result
          = some ExportError.encodingFailed ∧
      encodingState ExportFormat.mp4
        ∈ (handleExport allSkippedEnv true ExportFormat.mp4).states := by
  unfold handleExport allSkippedEnv
  dsimp only
  rw [if_neg (show ¬ (true = false) by simp), if_neg (show ¬ (true = false) by simp),
    if_neg (show ¬ (true = false ∨ (1 : ℚ) ≤ 0) by norm_num)]
  rw [show (min ⌈(1 : ℚ) * ((tierConfig true).fps : ℚ)⌉ (exportMaxFrames true : ℤ)).toNat = 10 by
    norm_num [tierConfig, FREE_EXPORT_CONFIG, exportMaxFrames]
    rfl]
  rw [if_neg (show ¬ ((10 : ℕ) : ℤ) < ⌈(1 : ℚ) * ((tierConfig true).fps : ℚ)⌉ by
    norm_num [tierConfig, FREE_EXPORT_CONFIG])]
  rw [if_neg (show ¬ (true = false) by simp)]
  rw [sampleFrames_all_skipped (fun _ => FrameOutcome.seekFailed) ExportFormat.mp4 10
    (fun _ => rfl) (List.range 10)]
  dsimp only
  rw [if_neg (show ¬ (10 = 0) by norm_num), if_pos rfl]
  refine ⟨rfl, by simp [finishRun], rfl, ?_⟩
  simp [finishRun]

/-- C5: a job that fails during the encoding phase reports the encoding
failure, its state trace is some initializing and sampling updates followed
exactly by the encoding update and then the error update, so it never
visits delivering or done, and the terminal error state carries progress
0. -/
theorem handleExport_encoding_failure_trace (env : ExportEnv) (isFreeTier : Bool)
    (format : ExportFormat)
    (hload : env.ffmpegLoadOk = true) (hmeta : env.metadataOk = true)
    (hfin : env.durationFinite = true) (hdur : 0 < env.duration)
    (hctx : env.exportContextOk = true)
    (hwrite : ∀ i, env.frameOutcome i ≠ FrameOutcome.writeFailed)
    (henc : env.encodeOk = false) :
    (handleExport env isFreeTier format).result = some ExportError.encodingFailed ∧
      (errorState format ExportError.encodingFailed).progress = 0 ∧
      (∀ s ∈ (handleExport env isFreeTier format).states,
        s.status ≠ ExportStatus.delivering ∧ s.status ≠ ExportStatus.done) ∧
      ∃ pre, (handleExport env isFreeTier format).states
          = pre ++ [encodingState format, errorState format ExportError.encodingFailed] ∧
        (∀ s ∈ pre, s.status = ExportStatus.initializing ∨ s.status = ExportStatus.sampling) ∧
        ∃ s ∈ pre, s.status = ExportStatus.sampling := by
  obtain ⟨load, metaOk, fin, dur, ctx, fo, enc, read⟩ := env
  dsimp only at hload hmeta hfin hdur hctx hwrite henc ⊢
  subst hload
  subst hmeta
  subst hfin
  subst hctx
  subst henc
  have hfps : (0 : ℚ) < ((tierConfig isFreeTier).fps : ℚ) := by
    cases isFreeTier <;> norm_num [tierConfig, FREE_EXPORT_CONFIG, PREMIUM_EXPORT_CONFIG]
  have hideal : 0 < ⌈dur * ((tierConfig isFreeTier).fps : ℚ)⌉ := Int.ceil_pos.mpr (mul_pos hdur hfps)
  have hcapPos : 0 < exportMaxFrames isFreeTier := by
    cases isFreeTier <;> norm_num [exportMaxFrames]
  unfold handleExport
  dsimp only
  rw [if_neg (show ¬ (true = false) by simp), if_neg (show ¬ (true = false) by simp)]
  set T := (min ⌈dur * ((tierConfig isFreeTier).fps : ℚ)⌉ (exportMaxFrames isFreeTier : ℤ)).toNat with hT
  have hTpos : 0 < T := by omega
  have hdcond : ¬ (true = false ∨ dur ≤ 0) := by
    rintro (habs | habs)
    · simp at habs
    · exact absurd habs hdur.not_le
  rw [if_neg hdcond, if_neg (show ¬ (true = false) by simp)]
  rw [sampleFrames_fatal_none fo format T hwrite (List.range T)]
  dsimp only
  rw [if_neg hTpos.ne', if_pos rfl]
  dsimp only [finishRun]
  have hsampl := sampleFrames_states_sampling fo format T (List.range T)
  by_cases htr : (T : ℤ) < ⌈dur * ((tierConfig isFreeTier).fps : ℚ)⌉
  · rw [if_pos htr]
    refine ⟨rfl, rfl, ?_, ?_⟩
    · intro s hs
      simp only [List.append_assoc, List.cons_append, List.nil_append, List.mem_append,
        List.mem_cons, List.not_mem_nil, or_false] at hs
      rcases hs with rfl | rfl | rfl | hs | rfl | rfl
      · exact ⟨by simp [initializingState], by simp [initializingState]⟩
      · exact ⟨by simp [samplingState], by simp [samplingState]⟩
      · exact ⟨by simp [truncationState], by simp [truncationState]⟩
      · have hst := hsampl s hs
        exact ⟨by simp [hst], by simp [hst]⟩
      · exact ⟨by simp [encodingState], by simp [encodingState]⟩
      · exact ⟨by simp [errorState], by simp [errorState]⟩
    · refine ⟨[initializingState format, samplingState format, truncationState format T]
          ++ (sampleFrames fo format T (List.range T)).states, ?_, ?_, ?_⟩
      · simp [List.append_assoc]
      · intro s hs
        simp only [List.cons_append, List.nil_append, List.mem_append,
          List.mem_cons, List.not_mem_nil, or_false] at hs
        rcases hs with rfl | rfl | rfl | hs
        · exact Or.inl rfl
        · exact Or.inr rfl
        · exact Or.inr rfl
        · exact Or.inr (hsampl s hs)
      · exact ⟨samplingState format, by simp, rfl⟩
  · rw [if_neg htr]
    refine ⟨rfl, rfl, ?_, ?_⟩
    · intro s hs
      simp only [List.append_assoc, List.cons_append, List.nil_append, List.mem_append,
        List.mem_cons, List.not_mem_nil, or_false] at hs
      rcases hs with rfl | rfl | hs | rfl | rfl
      · exact ⟨by simp [initializingState], by simp [initializingState]⟩
      · exact ⟨by simp [samplingState], by simp [samplingState]⟩
      · have hst := hsampl s hs
        exact ⟨by simp [hst], by simp [hst]⟩
      · exact ⟨by simp [encodingState], by simp [encodingState]⟩
      · exact ⟨by simp [errorState], by simp [errorState]⟩
    · refine ⟨[initializingState format, samplingState format]
          ++ (sampleFrames fo format T (List.range T)).states, ?_, ?_, ?_⟩
      · simp [List.append_assoc]
      · intro s hs
        simp only [List.cons_append, List.nil_append, List.mem_append,
          List.mem_cons, List.not_mem_nil, or_false] at hs
        rcases hs with rfl | rfl | hs
        · exact Or.inl rfl
        · exact Or.inr rfl
        · exact Or.inr (hsampl s hs)
      · exact ⟨samplingState format, by simp, rfl⟩

theorem handleExport_encoding_failure_trace_witness :
    encodeFailEnv.ffmpegLoadOk = true ∧
      encodeFailEnv.metadataOk = true ∧
      encodeFailEnv.durationFinite = true ∧
      0 < encodeFailEnv.duration ∧
      encodeFailEnv.exportContextOk = true ∧
      (∀ i, encodeFailEnv.frameOutcome i ≠ FrameOutcome.writeFailed) ∧
      encodeFailEnv.encodeOk = false ∧
      ((handleExport encodeFailEnv true ExportFormat.mp4).result
          = some ExportError.encodingFailed ∧
        (errorState ExportFormat.mp4 ExportError.encodingFailed).progress = 0 ∧
        (∀ s ∈ (handleExport encodeFailEnv true ExportFormat.mp4).states,
          s.status ≠ ExportStatus.delivering ∧ s.status ≠ ExportStatus.done) ∧
        ∃ pre, (handleExport encodeFailEnv true ExportFormat.mp4).states
            = pre ++ [encodingState ExportFormat.mp4,
                      errorState ExportFormat.mp4 ExportError.encodingFailed] ∧
          (∀ s ∈ pre, s.status = ExportStatus.initializing ∨ s.status = ExportStatus.sampling) ∧
          ∃ s ∈ pre, s.status = ExportStatus.sampling) :=
  ⟨rfl, rfl, rfl, by norm_num [encodeFailEnv], rfl,
    fun i h => FrameOutcome.noConfusion h, rfl,
    handleExport_encoding_failure_trace encodeFailEnv true ExportFormat.mp4
      rfl rfl rfl (by norm_num [encodeFailEnv]) rfl
      (fun i h => FrameOutcome.noConfusion h) rfl⟩

end AsciiVideo
